import Mathlib

/-!
Shallow embedding of the aqi-serverless-project pipelines and Streamlit app,
with theorems checking the natural-language specification against the code.

Sources embedded:
  * `src/app/main.py` — `calculate_aqi`, `load_model`, the forecast-tab
    prediction block;
  * `src/pipelines/training_pipeline.py` — `load_dataframe`,
    `prepare_features`, `train_and_evaluate`, `main`;
  * `src/pipelines/feature_pipeline.py` — `load_data`;
  * `src/pipelines/backfill_data.py` — the bulk `UpdateOne` upsert.

Python floats are modelled as exact rationals (`ℚ`); MongoDB collections as
lists of documents; a Python exception as `Option`/`Except` failure. Model
objects themselves (sklearn estimators) are abstracted as functions from the
feature columns the code actually passes them to a predicted value, or to
`Option`/failure where the code may raise.
-/

namespace Mongo

/-- Values stored in a MongoDB document, as used by this repository:
datetimes, strings, numbers, the float infinity initial `best_mae`, `None`,
and the per-candidate leaderboard array of `train_and_evaluate`. -/
inductive Value where
  | date : Value
  | null : Value
  | inf : Value
  | str : String → Value
  | num : ℚ → Value
  | candidates : List (String × ℚ) → Value
deriving DecidableEq

/-- A MongoDB document: field names bound to values. -/
def Doc : Type := List (String × Value)

end Mongo

namespace AqiApp

/-- Embeds `calculate_aqi` from `src/app/main.py` (lines 27-37): the
piecewise-linear PM2.5 → AQI conversion, with the exact constants of the
source (note the 12.1 / 35.5 / 55.5 segment-low constants). -/
def calculate_aqi (pm25 : ℚ) : ℚ :=
  if pm25 ≤ 12.0 then
    ((50 - 0) / (12.0 - 0)) * (pm25 - 0) + 0
  else if pm25 ≤ 35.4 then
    ((100 - 51) / (35.4 - 12.1)) * (pm25 - 12.1) + 51
  else if pm25 ≤ 55.4 then
    ((150 - 101) / (55.4 - 35.5)) * (pm25 - 35.5) + 101
  else if pm25 ≤ 150.4 then
    ((200 - 151) / (150.4 - 55.5)) * (pm25 - 55.5) + 151
  else
    300

/-- One row of the weather forecast dataframe built by
`get_weather_forecast` in `src/app/main.py`: the four columns the forecast
tab selects into `X_future` (line 127). -/
structure WRow where
  temp : ℚ
  humidity : ℚ
  wind_speed : ℚ
  hour : ℚ
deriving DecidableEq

/-- Embeds the forecast-tab prediction block of `src/app/main.py`
(lines 125-129): `forecast_df["Predicted_PM25"] = model.predict(X_future)`.
The model sees exactly the columns `temp, humidity, wind_speed, hour` of
each row, and every row is predicted independently in one batch call; there
is no lag column and no state carried between rows. -/
def tab_forecast_predictions (model : ℚ → ℚ → ℚ → ℚ → ℚ) (rows : List WRow) :
    List ℚ :=
  rows.map fun r => model r.temp r.humidity r.wind_speed r.hour

/-- Embeds line 129 of `src/app/main.py`:
`forecast_df["Predicted_AQI"] = forecast_df["Predicted_PM25"].apply(calculate_aqi)`. -/
def tab_forecast_aqi (model : ℚ → ℚ → ℚ → ℚ → ℚ) (rows : List WRow) :
    List ℚ :=
  (tab_forecast_predictions model rows).map calculate_aqi

/-- The same prediction block with a model that may raise on a row
(shape/type rejection). `model.predict` is one batch call: if the model
raises anywhere, the assignment on line 128 produces no column at all, so
the whole computation fails — modelled by `Option` over the batch. -/
def tab_forecast_predictions_exc (model : WRow → Option ℚ) :
    List WRow → Option (List ℚ)
  | [] => some []
  | r :: rest =>
    match model r with
    | none => none
    | some v => (tab_forecast_predictions_exc model rest).map (v :: ·)

/-- Embeds the document-field access `model_doc["model_binary"]` performed by
`load_model` in `src/app/main.py` (line 45): in Python a missing key raises
`KeyError`, modelled by `none`. -/
def load_model_binary (model_doc : Mongo.Doc) : Option Mongo.Value :=
  List.lookup "model_binary" model_doc

end AqiApp

namespace TrainingPipeline

/-- A document of the `features` collection, as written by
`src/pipelines/feature_pipeline.py` (`transform_data`) and read by
`src/pipelines/training_pipeline.py`. `timestamp` is in hours (an abstract
clock: `hour` of day is `timestamp % 24`); measurement fields are optional
because `transform_data` stores `None` when an API response lacks them. -/
structure FeatureDoc where
  timestamp : ℕ
  timestamp_hour : ℕ
  temp : Option ℚ
  humidity : Option ℚ
  wind_speed : Option ℚ
  pm2_5 : Option ℚ
  pm10 : Option ℚ
  no2 : Option ℚ
deriving DecidableEq

/-- Embeds `load_dataframe` of `src/pipelines/training_pipeline.py`
(lines 23-31): fetch all feature documents and sort them by timestamp. -/
def load_dataframe (docs : List FeatureDoc) : List FeatureDoc :=
  List.insertionSort (fun a b => a.timestamp ≤ b.timestamp) docs

/-- One row of the prepared training frame of `prepare_features`:
the seven feature columns plus the next-hour target. -/
structure Sample where
  pm2_5 : ℚ
  pm10 : ℚ
  no2 : ℚ
  temp : ℚ
  humidity : ℚ
  wind_speed : ℚ
  hour : ℕ
  target_pm2_5 : ℚ
deriving DecidableEq

/-- Embeds `prepare_features` of `src/pipelines/training_pipeline.py`
(lines 33-48): the target of row i is the PM2.5 of row i+1 (`shift(-1)`,
last row dropped), `hour` is derived from the timestamp, and `dropna`
removes every row with a missing feature or target. -/
def prepare_features (df : List FeatureDoc) : List Sample :=
  (df.zip (df.drop 1)).filterMap fun rn =>
    match rn.1.pm2_5, rn.1.pm10, rn.1.no2, rn.1.temp, rn.1.humidity,
          rn.1.wind_speed, rn.2.pm2_5 with
    | some p25, some p10, some n, some t, some h, some w, some tgt =>
        some ⟨p25, p10, n, t, h, w, rn.1.timestamp % 24, tgt⟩
    | _, _, _, _, _, _, _ => none

/-- Embeds the tournament loop of `train_and_evaluate`
(`src/pipelines/training_pipeline.py`, lines 61-88). A candidate is a name
together with the MAE its fit/predict/score produces, or `none` when
fit or predict raises. The accumulator is the running best
(`best_model_name`/`best_mae`, `none` standing for the initial
`best_mae = float("inf")`); a raised exception propagates out of the loop
(`Except.error`), as the Python loop has no try/except. On success the
loop yields the final best and the `results` leaderboard in order. -/
def trainLoop (best : Option (String × ℚ)) :
    List (String × Option ℚ) →
    Except Unit (Option (String × ℚ) × List (String × ℚ))
  | [] => Except.ok (best, [])
  | (_, none) :: _ => Except.error ()
  | (name, some mae) :: rest =>
    let newBest :=
      match best with
      | none => some (name, mae)
      | some b => if mae < b.2 then some (name, mae) else some b
    match trainLoop newBest rest with
    | Except.error e => Except.error e
    | Except.ok (w, tail) => Except.ok (w, (name, mae) :: tail)

/-- `train_and_evaluate` runs the tournament loop starting from
`best_model_name = None`, `best_mae = inf`. -/
def train_and_evaluate (cands : List (String × Option ℚ)) :
    Except Unit (Option (String × ℚ) × List (String × ℚ)) :=
  trainLoop none cands

/-- Embeds the registry document built on lines 101-106 of
`src/pipelines/training_pipeline.py`: the exact four fields
`experiment_date`, `winner`, `winner_mae`, `candidates`. -/
def registry_doc (best : Option (String × ℚ)) (results : List (String × ℚ)) :
    Mongo.Doc :=
  [("experiment_date", Mongo.Value.date),
   ("winner", match best with
              | some b => Mongo.Value.str b.1
              | none => Mongo.Value.null),
   ("winner_mae", match best with
                  | some b => Mongo.Value.num b.2
                  | none => Mongo.Value.inf),
   ("candidates", Mongo.Value.candidates results)]

/-- The effect of one `train_and_evaluate` call on the `model_registry`
collection: the `insert_one` on line 107 runs only after the loop finishes,
so an exception inside the loop leaves the registry untouched. -/
def run_training (registry : List Mongo.Doc)
    (cands : List (String × Option ℚ)) : List Mongo.Doc :=
  match train_and_evaluate cands with
  | Except.error _ => registry
  | Except.ok (best, results) => registry ++ [registry_doc best results]

/-- The selection rule in the spec's words: the first-declared candidate
whose MAE is a minimum over all candidates. -/
def firstMin (l : List (String × ℚ)) : Option (String × ℚ) :=
  l.find? fun p => l.all fun q => decide (p.2 ≤ q.2)

/-- Outcome of `main` in `src/pipelines/training_pipeline.py`
(lines 110-119): either the early `return` on an empty dataframe, or the
tournament being entered with the given number of prepared samples
(the model fitting itself is abstracted away). -/
inductive MainOutcome where
  | noData : MainOutcome
  | ranTournament : ℕ → MainOutcome
deriving DecidableEq

/-- Embeds the control flow of `main`: load the dataframe, return early iff
it is empty, otherwise run `prepare_features` and enter the tournament with
whatever samples remain — there is no further size check. -/
def train_main (docs : List FeatureDoc) : MainOutcome :=
  if docs.isEmpty then
    MainOutcome.noData
  else
    MainOutcome.ranTournament (prepare_features (load_dataframe docs)).length

end TrainingPipeline

namespace FeaturePipeline

open TrainingPipeline

/-- Embeds `load_data` of `src/pipelines/feature_pipeline.py`
(lines 116-124): look up a document with the same `timestamp_hour`; if one
exists, skip the insert entirely, otherwise append the new document. -/
def load_data (doc : FeatureDoc) (collection : List FeatureDoc) :
    List FeatureDoc :=
  if collection.any fun d => d.timestamp_hour == doc.timestamp_hour then
    collection
  else
    collection ++ [doc]

end FeaturePipeline

namespace BackfillData

/-- A record of the `pollution_data` collection written by
`src/pipelines/backfill_data.py`. -/
structure PollutionDoc where
  timestamp : ℕ
  pm2_5 : ℚ
  pm10 : ℚ
  temp : ℚ
  humidity : ℚ
  wind_speed : ℚ
deriving DecidableEq

/-- Embeds one `pymongo.UpdateOne({"timestamp": ts}, {"$set": record},
upsert=True)` of `backfill_history` (lines 104-113): if a document with the
same timestamp exists it is overwritten field-by-field (the `$set` carries
every field of the record), otherwise the record is inserted. -/
def upsert_by_timestamp (collection : List PollutionDoc)
    (record : PollutionDoc) : List PollutionDoc :=
  if collection.any fun d => d.timestamp == record.timestamp then
    collection.map fun d => if d.timestamp == record.timestamp then record else d
  else
    collection ++ [record]

end BackfillData

namespace SklearnSplit

/-- Number of held-out rows for `test_size=0.2`: sklearn's
`_validate_shuffle_split` takes `ceil(0.2 * n)`. -/
def test_count (n : ℕ) : ℕ := (n + 4) / 5

/-- Test indices drawn by `train_test_split(..., test_size=0.2,
random_state=42)` with its default `shuffle=True`
(`src/pipelines/training_pipeline.py`, line 52): sklearn's `ShuffleSplit`
takes the first `n_test` entries of an RNG permutation of the row indices.
The permutation produced by the seeded RNG is abstracted as a parameter. -/
def shuffle_test_indices (permutation : List ℕ) (n_test : ℕ) : List ℕ :=
  permutation.take n_test

/-- The split the spec describes: the last `n_test` rows in time order. -/
def chronological_test_indices (n n_test : ℕ) : List ℕ :=
  (List.range n).drop (n - n_test)

end SklearnSplit

/-! ## Theorems -/

namespace AqiApp

lemma calculate_aqi_mono {a b : ℚ} (_ha : 0 ≤ a) (hab : a ≤ b) :
    calculate_aqi a ≤ calculate_aqi b := by
  unfold calculate_aqi
  split_ifs <;> linarith

lemma calculate_aqi_nonneg {x : ℚ} (hx : 0 ≤ x) : 0 ≤ calculate_aqi x := by
  unfold calculate_aqi
  split_ifs <;> linarith

lemma calculate_aqi_le_300 (x : ℚ) : calculate_aqi x ≤ 300 := by
  unfold calculate_aqi
  split_ifs <;> linarith

/-- C4: the AQI mapping returns the stated values at the EPA segment
boundaries: 12.0 ↦ 50, 12.1 ↦ 51, 35.4 ↦ 100 (exactly, over ℚ),
55.4 ↦ 150 (exactly, over ℚ), 150.5 ↦ 300. -/
theorem calculate_aqi_boundary_values :
    calculate_aqi 12.0 = 50 ∧ calculate_aqi 12.1 = 51 ∧
    calculate_aqi 35.4 = 100 ∧ calculate_aqi 55.4 = 150 ∧
    calculate_aqi 150.5 = 300 := by
  refine ⟨?_, ?_, ?_, ?_, ?_⟩ <;> norm_num [calculate_aqi]

/-- C10: the AQI mapping is monotone nondecreasing on non-negative inputs,
and on non-negative inputs its value lies in the closed interval [0, 300]. -/
theorem calculate_aqi_mono_and_range :
    (∀ a b : ℚ, 0 ≤ a → a ≤ b → calculate_aqi a ≤ calculate_aqi b) ∧
    (∀ x : ℚ, 0 ≤ x → 0 ≤ calculate_aqi x ∧ calculate_aqi x ≤ 300) :=
  ⟨fun _ _ ha hab => calculate_aqi_mono ha hab,
   fun x hx => ⟨calculate_aqi_nonneg hx, calculate_aqi_le_300 x⟩⟩

/-- Witness for C10: the theorem applied at the concrete inputs a = 1, b = 2
and x = 40, with the hypotheses discharged numerically. -/
theorem calculate_aqi_mono_and_range_witness :
    calculate_aqi 1 ≤ calculate_aqi 2 ∧
    0 ≤ calculate_aqi 40 ∧ calculate_aqi 40 ≤ 300 :=
  ⟨calculate_aqi_mono_and_range.1 1 2 (by norm_num) (by norm_num),
   (calculate_aqi_mono_and_range.2 40 (by norm_num)).1,
   (calculate_aqi_mono_and_range.2 40 (by norm_num)).2⟩

/-- C1 counterexample: no model whatsoever makes the forecast-tab
prediction block output [11, 12, 13] on three identical weather points —
predictions are a stateless per-row map over {temp, humidity, wind_speed,
hour}, so identical rows always get identical predictions; in particular no
running-lag recurrence seeded at 10 exists in this code. -/
theorem tab_forecast_no_recurrence_counterexample :
    ¬ ∃ m : ℚ → ℚ → ℚ → ℚ → ℚ,
      tab_forecast_predictions m
        [⟨25, 60, 10, 12⟩, ⟨25, 60, 10, 12⟩, ⟨25, 60, 10, 12⟩] =
        [11, 12, 13] := by
  rintro ⟨m, hm⟩
  simp only [tab_forecast_predictions, List.map_cons, List.map_nil,
    List.cons.injEq, and_true] at hm
  rw [hm.1] at hm
  exact absurd hm.2.1 (by norm_num)

/-- C1 (amended): the forecast tab computes predictions by one stateless
batch call on the four columns temp, humidity, wind_speed, hour: the
prediction of each point depends only on that point's own features (no lag,
no seed, no recurrence), so identical points always receive identical
PM2.5 predictions and identical AQI values. -/
theorem tab_forecast_pointwise_no_recurrence :
    (∀ (m : ℚ → ℚ → ℚ → ℚ → ℚ) (pre : List WRow) (r : WRow) (post : List WRow),
      tab_forecast_predictions m (pre ++ r :: post) =
        tab_forecast_predictions m pre ++
          m r.temp r.humidity r.wind_speed r.hour ::
            tab_forecast_predictions m post) ∧
    (∀ (m : ℚ → ℚ → ℚ → ℚ → ℚ) (r : WRow) (n : ℕ),
      tab_forecast_predictions m (List.replicate n r) =
        List.replicate n (m r.temp r.humidity r.wind_speed r.hour)) ∧
    (∀ (m : ℚ → ℚ → ℚ → ℚ → ℚ) (r : WRow) (n : ℕ),
      tab_forecast_aqi m (List.replicate n r) =
        List.replicate n (calculate_aqi (m r.temp r.humidity r.wind_speed r.hour))) := by
  refine ⟨?_, ?_, ?_⟩ <;>
    intros <;>
    simp [tab_forecast_predictions, tab_forecast_aqi, List.map_replicate]

/-- C9 counterexample: with five weather points and a model that raises on
the third point (hour = 3), the forecast-tab prediction block produces
nothing at all — the single batch `model.predict` fails, so no
`Predicted_PM25` column and no partial sequence of 2 points exists. -/
theorem tab_forecast_batch_failure_counterexample :
    tab_forecast_predictions_exc
      (fun r => if r.hour = 3 then none else some r.temp)
      [⟨20, 50, 10, 1⟩, ⟨21, 50, 10, 2⟩, ⟨22, 50, 10, 3⟩,
       ⟨23, 50, 10, 4⟩, ⟨24, 50, 10, 5⟩] = none := by
  rfl

/-- C9 (amended): the forecast tab's prediction is all-or-nothing: if the
model rejects any row of the batch, the whole prediction fails and no
forecast points are produced (there is no PredictionError handling and no
partial result). -/
theorem tab_forecast_batch_all_or_nothing
    (m : WRow → Option ℚ) (rows : List WRow)
    (h : ∃ r ∈ rows, m r = none) :
    tab_forecast_predictions_exc m rows = none := by
  induction rows with
  | nil => simp at h
  | cons a l ih =>
    obtain ⟨r, hr, hnone⟩ := h
    rcases List.mem_cons.mp hr with h1 | h2
    · subst h1
      simp [tab_forecast_predictions_exc, hnone]
    · cases ha : m a with
      | none => simp [tab_forecast_predictions_exc, ha]
      | some v =>
        have hrec := ih ⟨r, h2, hnone⟩
        simp [tab_forecast_predictions_exc, ha, hrec]

/-- Witness for C9's amended theorem: applied to a concrete failing model
and a concrete one-point batch. -/
theorem tab_forecast_batch_all_or_nothing_witness :
    tab_forecast_predictions_exc (fun _ => (none : Option ℚ))
      [⟨1, 2, 3, 4⟩] = none :=
  tab_forecast_batch_all_or_nothing (fun _ => none) [⟨1, 2, 3, 4⟩]
    ⟨⟨1, 2, 3, 4⟩, by simp, rfl⟩

end AqiApp

namespace TrainingPipeline

/-- C5: the registry document written by a successful training run (fields
`experiment_date`, `winner`, `winner_mae`, `candidates`) contains no
`model_binary` field, so the app's `load_model` — which reads
`model_doc["model_binary"]` — cannot deserialize a model from it: the
serialized winner goes only to the local file `aqi_model.pkl`. Evaluated
at a concrete three-candidate run. -/
theorem registry_doc_has_no_model_binary :
    AqiApp.load_model_binary
      (registry_doc (some ("Random Forest", 3))
        [("Linear Regression", 5), ("Random Forest", 3),
         ("Gradient Boosting", 4)]) = none ∧
    (registry_doc (some ("Random Forest", 3))
        [("Linear Regression", 5), ("Random Forest", 3),
         ("Gradient Boosting", 4)]).length = 4 := by
  constructor <;> rfl

/-- C2: over the three declared candidates, the tournament loop selects
exactly the first-declared candidate achieving the minimum MAE (strict
`mae < best_mae` keeps the earlier candidate on ties), and the leaderboard
lists every candidate in declaration order. Stated for arbitrary MAE values
of the three candidates Linear Regression, Random Forest, Gradient
Boosting. -/
theorem train_and_evaluate_selects_first_min_mae (a b c : ℚ) :
    train_and_evaluate
      [("Linear Regression", some a), ("Random Forest", some b),
       ("Gradient Boosting", some c)] =
    Except.ok
      (firstMin [("Linear Regression", a), ("Random Forest", b),
                 ("Gradient Boosting", c)],
       [("Linear Regression", a), ("Random Forest", b),
        ("Gradient Boosting", c)]) := by
  rcases lt_or_le b a with hba | hba
  · rcases lt_or_le c b with hcb | hcb
    · have h1 : ¬ a ≤ b := not_le.mpr hba
      have h2 : ¬ b ≤ c := not_le.mpr hcb
      have h3 : c ≤ b := le_of_lt hcb
      have h4 : b ≤ a := le_of_lt hba
      have h5 : c ≤ a := h3.trans h4
      simp [train_and_evaluate, trainLoop, firstMin, hba, hcb, h1, h2, h3,
        h4, h5]
    · have h1 : ¬ a ≤ b := not_le.mpr hba
      have h2 : ¬ c < b := not_lt.mpr hcb
      have h4 : b ≤ a := le_of_lt hba
      simp [train_and_evaluate, trainLoop, firstMin, hba, h1, h2, h4, hcb]
  · rcases lt_or_le c a with hca | hca
    · have h1 : ¬ b < a := not_lt.mpr hba
      have h2 : ¬ a ≤ c := not_le.mpr hca
      have h3 : c ≤ a := le_of_lt hca
      have h4 : ¬ b ≤ c := not_le.mpr (lt_of_lt_of_le hca hba)
      have h5 : c ≤ b := le_of_lt (lt_of_lt_of_le hca hba)
      simp [train_and_evaluate, trainLoop, firstMin, hca, h1, h2, h3, h4, h5]
    · have h1 : ¬ b < a := not_lt.mpr hba
      have h2 : ¬ c < a := not_lt.mpr hca
      simp [train_and_evaluate, trainLoop, firstMin, hba, hca, h1, h2]

lemma trainLoop_error_of_failure :
    ∀ (cands : List (String × Option ℚ)) (best : Option (String × ℚ)),
      (∃ x ∈ cands, x.2 = none) → trainLoop best cands = Except.error () := by
  intro cands
  induction cands with
  | nil => intro best h; simp at h
  | cons p rest ih =>
    intro best h
    obtain ⟨x, hx, hnone⟩ := h
    rcases p with ⟨name, mres⟩
    cases mres with
    | none => rfl
    | some mae =>
      rcases List.mem_cons.mp hx with h1 | h2
      · rw [h1] at hnone; simp at hnone
      · simp only [trainLoop]
        rw [ih _ ⟨x, h2, hnone⟩]

/-- C8 (amended): a candidate whose fit or predict raises aborts the whole
tournament at that point — later candidates are never evaluated (the loop
returns an error as soon as it meets a failing candidate, whatever follows)
— and any run containing a failing candidate writes nothing to the model
registry, leaving previously persisted registry documents intact. -/
theorem failed_candidate_aborts_tournament :
    (∀ (best : Option (String × ℚ)) (name : String)
       (rest : List (String × Option ℚ)),
       trainLoop best ((name, none) :: rest) = Except.error ()) ∧
    (∀ (registry : List Mongo.Doc) (cands : List (String × Option ℚ)),
       (∃ x ∈ cands, x.2 = none) → run_training registry cands = registry) := by
  constructor
  · intro best name rest; rfl
  · intro registry cands h
    unfold run_training train_and_evaluate
    rw [trainLoop_error_of_failure cands none h]

/-- Witness for C8's amended theorem: a failing first candidate aborts the
loop, and a registry holding one prior document is left unchanged by a run
whose second candidate fails. -/
theorem failed_candidate_aborts_tournament_witness :
    trainLoop none [("Linear Regression", none), ("Random Forest", some 1)] =
      Except.error () ∧
    run_training [registry_doc (some ("Random Forest", 3)) []]
      [("Linear Regression", some 2), ("Random Forest", none)] =
      [registry_doc (some ("Random Forest", 3)) []] :=
  ⟨failed_candidate_aborts_tournament.1 none "Linear Regression"
     [("Random Forest", some 1)],
   failed_candidate_aborts_tournament.2 _ _
     ⟨("Random Forest", none), by simp, rfl⟩⟩

/-- C8 counterexample: when the first candidate's fit raises, the tournament
does not exclude it and move on — the whole loop fails at once, so the
remaining candidates (here Random Forest with MAE 1 and Gradient Boosting
with MAE 2) are never evaluated and no winner is selected, contradicting
the claim that the surviving candidates are still scored. -/
theorem train_and_evaluate_candidate_failure_counterexample :
    train_and_evaluate
      [("Linear Regression", none), ("Random Forest", some 1),
       ("Gradient Boosting", some 2)] = Except.error () := by
  rfl

/-- C7 counterexample: a three-document feature collection (yielding only
2 prepared samples, far below the claimed floor of 10) is not rejected:
`main` proceeds straight into the tournament with those 2 samples, fitting
models — no `InsufficientDataError` exists anywhere in the code. -/
theorem train_main_trains_below_minimum_counterexample :
    train_main
      [⟨0, 0, some 20, some 40, some 5, some 10, some 30, some 2⟩,
       ⟨1, 1, some 21, some 41, some 6, some 11, some 31, some 3⟩,
       ⟨2, 2, some 22, some 42, some 7, some 12, some 32, some 4⟩] =
      MainOutcome.ranTournament 2 ∧ (2 : ℕ) < 10 := by
  constructor
  · rfl
  · norm_num

/-- C7 (amended): on an empty collection `main` merely logs and returns
(no exception of any kind); on any non-empty collection it always proceeds
to the tournament, with no minimum-sample-count check whatsoever. -/
theorem train_main_no_minimum_sample_check :
    train_main [] = MainOutcome.noData ∧
    ∀ docs : List FeatureDoc, docs ≠ [] →
      ∃ n, train_main docs = MainOutcome.ranTournament n := by
  constructor
  · rfl
  · intro docs h
    cases docs with
    | nil => exact absurd rfl h
    | cons d rest => exact ⟨_, rfl⟩

/-- Witness for C7's amended theorem: applied to the empty collection and to
a concrete one-document collection. -/
theorem train_main_no_minimum_sample_check_witness :
    train_main [] = MainOutcome.noData ∧
    ∃ n, train_main [⟨9, 9, none, none, none, none, none, none⟩] =
      MainOutcome.ranTournament n :=
  ⟨train_main_no_minimum_sample_check.1,
   train_main_no_minimum_sample_check.2
     [⟨9, 9, none, none, none, none, none, none⟩] (by simp)⟩

end TrainingPipeline

namespace FeaturePipeline

open TrainingPipeline BackfillData

/-- C6 counterexample: two ingestion calls for the same hour with different
payloads (temp 20 vs temp 99) leave the store holding the FIRST call's
document — `load_data` skips the insert when a document for the hour
already exists, so the second write's values are dropped, contradicting
last-write-wins. -/
theorem load_data_second_write_dropped_counterexample :
    load_data ⟨0, 5, some 99, some 40, some 3, some 10, some 30, some 1⟩
      (load_data ⟨0, 5, some 20, some 40, some 3, some 10, some 30, some 1⟩ []) =
      [⟨0, 5, some 20, some 40, some 3, some 10, some 30, some 1⟩] ∧
    (⟨0, 5, some 20, some 40, some 3, some 10, some 30, some 1⟩ :
        FeatureDoc).temp ≠
      (⟨0, 5, some 99, some 40, some 3, some 10, some 30, some 1⟩ :
        FeatureDoc).temp := by
  constructor
  · rfl
  · decide

/-- C6 (amended): ingestion is insert-if-absent, first-write-wins: after two
`load_data` calls for the same hour the store holds exactly one document —
the FIRST call's document, the second call being skipped with no merge. By
contrast the backfill script's `UpdateOne(..., {"$set": record},
upsert=True)` keyed by exact timestamp IS last-write-wins: after two
upserts for the same timestamp the store holds exactly the second record. -/
theorem ingestion_first_write_wins_and_upsert_last_write_wins :
    (∀ d1 d2 : FeatureDoc, d1.timestamp_hour = d2.timestamp_hour →
       load_data d2 (load_data d1 []) = [d1]) ∧
    (∀ r1 r2 : PollutionDoc, r1.timestamp = r2.timestamp →
       upsert_by_timestamp (upsert_by_timestamp [] r1) r2 = [r2]) := by
  constructor
  · intro d1 d2 h
    simp [load_data, h]
  · intro r1 r2 h
    simp [upsert_by_timestamp, h]

/-- Witness for C6's amended theorem: applied to concrete documents sharing
an hour key (and concrete pollution records sharing a timestamp). -/
theorem ingestion_write_semantics_witness :
    load_data ⟨7, 3, some 2, some 2, some 2, some 2, some 2, some 2⟩
      (load_data ⟨6, 3, some 1, some 1, some 1, some 1, some 1, some 1⟩ []) =
      [⟨6, 3, some 1, some 1, some 1, some 1, some 1, some 1⟩] ∧
    upsert_by_timestamp
      (upsert_by_timestamp [] ⟨4, 1, 1, 1, 1, 1⟩) ⟨4, 2, 2, 2, 2, 2⟩ =
      [⟨4, 2, 2, 2, 2, 2⟩] :=
  ⟨ingestion_first_write_wins_and_upsert_last_write_wins.1
     ⟨6, 3, some 1, some 1, some 1, some 1, some 1, some 1⟩
     ⟨7, 3, some 2, some 2, some 2, some 2, some 2, some 2⟩ rfl,
   ingestion_first_write_wins_and_upsert_last_write_wins.2
     ⟨4, 1, 1, 1, 1, 1⟩ ⟨4, 2, 2, 2, 2, 2⟩ rfl⟩

end FeaturePipeline

namespace SklearnSplit

/-- C3: `train_test_split(X, y, test_size=0.2, random_state=42)` uses
sklearn's default `shuffle=True`: the held-out rows are the first
`ceil(0.2·n)` entries of an RNG permutation of the indices, not the
chronological tail. Demonstrated at n = 10: even under the identity
permutation the mechanism holds out rows {0, 1}, whereas the spec's
chronological policy holds out rows {8, 9}; for the seeded shuffled
permutation the test rows are likewise drawn from arbitrary positions. -/
theorem shuffle_split_not_chronological :
    shuffle_test_indices (List.range 10) (test_count 10) = [0, 1] ∧
    chronological_test_indices 10 (test_count 10) = [8, 9] ∧
    shuffle_test_indices (List.range 10) (test_count 10) ≠
      chronological_test_indices 10 (test_count 10) := by
  refine ⟨?_, ?_, ?_⟩ <;> decide

end SklearnSplit
